import Mathlib

/-!
# Verification of the pymlops reflection-driven database access layer

This file shallowly embeds the two `DBInterface` modules of the repository
(`src/pymlops/db/interface.py` and `src/db/interface.py`) together with the
behaviour of the backing relational store they drive through SQLAlchemy, and
proves or refutes the specified properties of the layer.

The store is modelled as a single table: an ordered list of rows, each row an
association list from column name to value, with an integer primary-key
(rowid) column and optional NOT NULL constraints.  A missing column in a row
reads as SQL NULL.  Filters are conjunctive equality conditions, exactly as
built by the `**kwargs` loops in the source.
-/

/-- A scalar value stored in a column: an integer, a string, or SQL NULL. -/
inductive Value where
  | intV : Int → Value
  | strV : String → Value
  | nullV : Value
deriving DecidableEq, Repr

/-- A row is an association list from column name to value; a column that is
absent from the list holds SQL NULL. -/
abbrev Row := List (String × Value)

/-- Read column `k` of row `r`; a missing column is NULL. -/
def lookupV (r : Row) (k : String) : Value := (r.lookup k).getD .nullV

/-- One table of the backing store.  `pk` is the integer primary-key (rowid)
column, `cols` the reflected schema (with `pk` among them in a well-formed
table), `notNull` the NOT NULL constrained columns, and `nextId` the next
autoincrement rowid the store would generate. -/
structure Table where
  pk : String
  cols : List String
  notNull : List String
  rows : List Row
  nextId : Int
deriving DecidableEq, Repr

/-- The Python-level errors the embedded operations can raise. -/
inductive PyErr where
  | attributeError
  | compileError
  | integrityError
  | resourceClosed
  | typeError
  | nameError
deriving DecidableEq, Repr

/-- One equality condition `col == value` holds of a row.  SQLAlchemy compiles
`column == None` to `IS NULL`, so comparing against the stored value (NULL for
a missing column) is the uniform semantics. -/
def condHolds (r : Row) (c : String × Value) : Bool :=
  lookupV r c.1 == c.2

/-- A conjunctive filter (the `and_(*conditions)` of the source) holds of a
row; the empty conjunction holds of every row. -/
def condsHold (conds : Row) (r : Row) : Bool :=
  conds.all (condHolds r)

/-- The `for key, value in kwargs.items(): conditions.append(getattr(t.c, key) == value)`
loop of the source: building a condition on a column that is not in the
reflected schema raises `AttributeError`. -/
def buildConds (t : Table) (filters : Row) : Except PyErr Row :=
  if filters.all (fun kv => t.cols.contains kv.1) then .ok filters
  else .error .attributeError

/-- Store-enforced row constraints: the primary-key column holds an integer,
and every NOT NULL column is non-NULL. -/
def rowOk (pk : String) (notNull : List String) (r : Row) : Bool :=
  (match lookupV r pk with | .intV _ => true | _ => false)
    && notNull.all (fun c => !(lookupV r c == .nullV))

/-- Store-enforced uniqueness of the primary-key column across rows. -/
def pkUnique (pk : String) : List Row → Bool
  | [] => true
  | r :: rs => rs.all (fun r2 => !(lookupV r2 pk == lookupV r pk)) && pkUnique pk rs

/-- The rows matched by a conjunctive filter, in store order. -/
def selectRows (t : Table) (conds : Row) : List Row :=
  t.rows.filter (condsHold conds)

/-- Result of a select: `one` is the `fetchone` shape (a row tuple or the
no-row signal), `many` the `fetchall` shape. -/
inductive SelRes where
  | one : Option (List Value) → SelRes
  | many : List (List Value) → SelRes
deriving DecidableEq, Repr

/-- Outcome of an update call: the table state after the call, the entries
written to the diagnostic stream (stderr), and the error raised to the
caller, if any. -/
structure OpResult where
  state : Table
  log : List PyErr
  raised : Option PyErr
deriving DecidableEq, Repr

/-- The rowid the store generates for an insert: an explicitly supplied
integer primary-key value is used as the rowid; a supplied non-integer value
is rejected; otherwise the autoincrement id is used. -/
def genRowid (t : Table) (vals : Row) : Option Int :=
  match vals.lookup t.pk with
  | some (.intV n) => some n
  | some _ => none
  | none => some t.nextId

/-- The store executing an INSERT of the (already schema-filtered) values:
the new row is the values with the primary-key column set to the generated
rowid; the row must satisfy the row constraints and must not collide with an
existing primary key.  On success, returns the new state and `lastrowid`. -/
def insertExec (t : Table) (vals : Row) : Except PyErr (Table × Int) :=
  match genRowid t vals with
  | none => .error .integrityError
  | some n =>
    let newRow : Row := (t.pk, .intV n) :: vals.filter (fun kv => kv.1 != t.pk)
    if rowOk t.pk t.notNull newRow
        && t.rows.all (fun r => !(lookupV r t.pk == .intV n)) then
      .ok ({ t with rows := t.rows ++ [newRow], nextId := max t.nextId (n + 1) }, n)
    else .error .integrityError

/-- Set column `k` of row `r` to `v` (replace, or append when absent). -/
def setCol (r : Row) (k : String) (v : Value) : Row :=
  if r.any (fun kv => kv.1 == k) then
    r.map (fun kv => if kv.1 == k then (k, v) else kv)
  else r ++ [(k, v)]

/-- Apply an UPDATE's SET clause to one row. -/
def applyData (data : Row) (r : Row) : Row :=
  data.foldl (fun acc kv => setCol acc kv.1 kv.2) r

/-- The store executing `t.update().values(data).where(and_(*conds))`:
a SET key outside the schema is an unconsumed column name (`CompileError`,
raised inside `connection.execute`); otherwise every matching row is updated,
and the statement fails wholesale with `IntegrityError` if any resulting row
violates the row constraints or primary-key uniqueness. -/
def executeUpdate (t : Table) (data : Row) (conds : Row) : Except PyErr Table :=
  if data.all (fun kv => t.cols.contains kv.1) then
    let newRows := t.rows.map (fun r => if condsHold conds r then applyData data r else r)
    if newRows.all (rowOk t.pk t.notNull) && pkUnique t.pk newRows then
      .ok { t with rows := newRows }
    else .error .integrityError
  else .error .compileError

/-- The driver-level result of `connection.execute(text(sql))`: SQLAlchemy's
`CursorResult`, which either carries a row set (`returns_rows`) or not (for
DDL/DML statements). -/
structure CursorResult where
  returns_rows : Bool
  rows : List (List Value)
deriving DecidableEq, Repr

/-- `CursorResult.fetchall()`: returns the row set, or raises
`ResourceClosedError` ("This result object does not return rows.") when the
statement produced no row set. -/
def fetchallR (res : CursorResult) : Except PyErr (List (List Value)) :=
  if res.returns_rows then .ok res.rows else .error .resourceClosed

/-- `hasattr(result, "fetchall")`: SQLAlchemy's `CursorResult` defines
`fetchall` unconditionally, so this test is true for every result. -/
def hasattrFetchall (_ : CursorResult) : Bool := true

/-- Truthiness of a `CursorResult`: it defines no `__bool__`/`__len__`, so it
is always truthy. -/
def truthyResult (_ : CursorResult) : Bool := true

/-- The fixed sqlite tuning sequence issued at construction, in source
order. -/
def pragmaSequence : List String :=
  ["PRAGMA journal_mode=WAL;", "PRAGMA synchronous=NORMAL;",
   "PRAGMA wal_autocheckpoint=1000", "PRAGMA foreign_keys=ON;"]

/-- `pat` occurs as a contiguous run inside `l`. -/
def containsSub (pat : List Char) : List Char → Bool
  | [] => pat.isEmpty
  | c :: rest => pat.isPrefixOf (c :: rest) || containsSub pat rest

/-- Python's `'sqlite' in connection_string`: substring containment. -/
def containsSqlite (cs : String) : Bool :=
  containsSub "sqlite".toList cs.toList

/-- The dialect named by a SQLAlchemy connection URI: the text before `://`,
with any `+driver` suffix removed (URI format `dialect+driver://...`). -/
def dialectOf (cs : String) : String :=
  String.mk ((cs.toList.takeWhile (fun c => c ≠ ':')).takeWhile (fun c => c ≠ '+'))

/-! ## The `src/pymlops/db/interface.py` module -/

namespace Pymlops

/-- The tuning directives `__init__` issues: the four PRAGMAs whenever the
connection string contains `'sqlite'`, nothing otherwise. -/
def initPragmas (cs : String) : List String :=
  if containsSqlite cs then pragmaSequence else []

/-- `query(sql)`, as a function of the driver result of executing the text:
`if result and hasattr(result, "fetchall"): return result.fetchall()` and an
implicit `None` otherwise.  `fetchall` may raise (see `fetchallR`). -/
def query (res : CursorResult) : Except PyErr (Option (List (List Value))) :=
  if truthyResult res && hasattrFetchall res then
    (fetchallR res).map (fun rs => some rs)
  else .ok none

/-- `prepare_insertion(table, data)`: keep exactly the keys that are columns
of the reflected table. -/
def prepare_insertion (t : Table) (data : Row) : Row :=
  data.filter (fun kv => t.cols.contains kv.1)

/-- `insert_row(table, data)`: execute the prepared insert, commit, and
return `lastrowid`.  On success the new state and the rowid are returned. -/
def insert_row (t : Table) (data : Row) : Except PyErr (Table × Int) :=
  insertExec t (prepare_insertion t data)

/-- `update_row(table, data, atomic, **kwargs)`.  The conditions (and the
statement) are built before the `try` block, so an unknown filter column
raises in both modes.  Non-atomic mode executes and commits, propagating any
failure.  Atomic mode issues `BEGIN EXCLUSIVE`, executes and commits; on any
failure it prints the error to stderr and rolls back, raising nothing. -/
def update_row (t : Table) (data : Row) (atomic : Bool) (filters : Row) : OpResult :=
  match buildConds t filters with
  | .error e => { state := t, log := [], raised := some e }
  | .ok conds =>
    match executeUpdate t data conds with
    | .ok t2 => { state := t2, log := [], raised := none }
    | .error e =>
      if atomic then { state := t, log := [e], raised := none }
      else { state := t, log := [], raised := some e }

/-- `aselect(table, col_name, fetch_one, **kwargs)`: conjunctive equality
select of one column.  With `fetch_one`, `tuple(r) if r else None` — a
one-column row is truthy, so only the absent row maps to `None`. -/
def aselect (t : Table) (colName : String) (fetchOne : Bool) (filters : Row) :
    Except PyErr SelRes :=
  match buildConds t filters with
  | .error e => .error e
  | .ok conds =>
    if t.cols.contains colName then
      let rs := (selectRows t conds).map (fun r => [lookupV r colName])
      if fetchOne then
        match rs with
        | [] => .ok (.one none)
        | r :: _ => .ok (.one (some r))
      else .ok (.many rs)
    else .error .attributeError

/-- `aselectn(table, col_names, fetch_one, **kwargs)`: as `aselect` over a
column list, but with `fetch_one` the source applies `tuple(...)` directly to
`res.fetchone()`, so a missing row (`None`) raises `TypeError`. -/
def aselectn (t : Table) (colNames : List String) (fetchOne : Bool) (filters : Row) :
    Except PyErr SelRes :=
  match buildConds t filters with
  | .error e => .error e
  | .ok conds =>
    if colNames.all (fun c => t.cols.contains c) then
      let rs := (selectRows t conds).map (fun r => colNames.map (lookupV r))
      if fetchOne then
        match rs with
        | [] => .error .typeError
        | r :: _ => .ok (.one (some r))
      else .ok (.many rs)
    else .error .attributeError

/-- `select_all(table)`: every row, every column, in store order. -/
def select_all (t : Table) : List (List Value) :=
  t.rows.map (fun r => t.cols.map (lookupV r))

/-- `remove(table, column_name, column_value)`: delete the rows where the one
column equals the value. -/
def remove (t : Table) (colName : String) (v : Value) : Except PyErr Table :=
  if t.cols.contains colName then
    .ok { t with rows := t.rows.filter (fun r => !(lookupV r colName == v)) }
  else .error .attributeError

/-- `removen(table, **kwargs)`: delete the rows matching the conjunctive
filter; returns nothing. -/
def removen (t : Table) (filters : Row) : Except PyErr Table :=
  match buildConds t filters with
  | .error e => .error e
  | .ok conds => .ok { t with rows := t.rows.filter (fun r => !(condsHold conds r)) }

end Pymlops

/-! ## The `src/db/interface.py` module -/

namespace Dbmod

/-- `__init__` of the db module applies no tuning directives for any
connection string. -/
def initPragmas (_ : String) : List String := []

/-- `query(sql)`: textually identical to the pymlops version. -/
def query (res : CursorResult) : Except PyErr (Option (List (List Value))) :=
  if truthyResult res && hasattrFetchall res then
    (fetchallR res).map (fun rs => some rs)
  else .ok none

/-- `prepare_insertion`: textually identical to the pymlops version. -/
def prepare_insertion (t : Table) (data : Row) : Row :=
  data.filter (fun kv => t.cols.contains kv.1)

/-- `insert_row`: textually identical to the pymlops version. -/
def insert_row (t : Table) (data : Row) : Except PyErr (Table × Int) :=
  insertExec t (prepare_insertion t data)

/-- `update_row` of the db module: the atomic branch opens a transaction with
`connection.begin()` and, on failure, runs
`print("Caught", e, file=sys.stderr)` — but this module never imports `sys`,
so the handler itself raises `NameError`; `trans.rollback()` is skipped and
nothing is logged.  The failed statement has already been undone by the
store's statement-level atomicity, so the visible state is unchanged. -/
def update_row (t : Table) (data : Row) (atomic : Bool) (filters : Row) : OpResult :=
  match buildConds t filters with
  | .error e => { state := t, log := [], raised := some e }
  | .ok conds =>
    match executeUpdate t data conds with
    | .ok t2 => { state := t2, log := [], raised := none }
    | .error e =>
      if atomic then { state := t, log := [], raised := some .nameError }
      else { state := t, log := [], raised := some e }

/-- `aselect`: behaviourally identical to the pymlops version (the extra
ignored `*args` parameter has no effect). -/
def aselect (t : Table) (colName : String) (fetchOne : Bool) (filters : Row) :
    Except PyErr SelRes :=
  match buildConds t filters with
  | .error e => .error e
  | .ok conds =>
    if t.cols.contains colName then
      let rs := (selectRows t conds).map (fun r => [lookupV r colName])
      if fetchOne then
        match rs with
        | [] => .ok (.one none)
        | r :: _ => .ok (.one (some r))
      else .ok (.many rs)
    else .error .attributeError

/-- `aselectn`: textually identical to the pymlops version. -/
def aselectn (t : Table) (colNames : List String) (fetchOne : Bool) (filters : Row) :
    Except PyErr SelRes :=
  match buildConds t filters with
  | .error e => .error e
  | .ok conds =>
    if colNames.all (fun c => t.cols.contains c) then
      let rs := (selectRows t conds).map (fun r => colNames.map (lookupV r))
      if fetchOne then
        match rs with
        | [] => .error .typeError
        | r :: _ => .ok (.one (some r))
      else .ok (.many rs)
    else .error .attributeError

/-- `select_all`: textually identical to the pymlops version. -/
def select_all (t : Table) : List (List Value) :=
  t.rows.map (fun r => t.cols.map (lookupV r))

/-- `remove`: textually identical to the pymlops version. -/
def remove (t : Table) (colName : String) (v : Value) : Except PyErr Table :=
  if t.cols.contains colName then
    .ok { t with rows := t.rows.filter (fun r => !(lookupV r colName == v)) }
  else .error .attributeError

/-- `removen` of the db module additionally returns the execution result; the
observable part is the DELETE's rowcount. -/
def removen (t : Table) (filters : Row) : Except PyErr (Table × Nat) :=
  match buildConds t filters with
  | .error e => .error e
  | .ok conds =>
    .ok ({ t with rows := t.rows.filter (fun r => !(condsHold conds r)) },
         (t.rows.filter (condsHold conds)).length)

end Dbmod

/-! ## Sample stores used by the witnesses -/

/-- The spec's scenario table `users(id, name, age)`, empty. -/
def tUsers : Table :=
  { pk := "id", cols := ["id", "name", "age"], notNull := [], rows := [], nextId := 1 }

/-- A superset row-data mapping: `extra` is not a column of `users`. -/
def dIns : Row := [("name", .strV "a"), ("age", .intV 1), ("extra", .intV 9)]

/-- `users` after inserting `dIns` (generated id 1). -/
def tUsers1 : Table :=
  { pk := "id", cols := ["id", "name", "age"], notNull := [],
    rows := [[("id", .intV 1), ("name", .strV "a"), ("age", .intV 1)]], nextId := 2 }

/-- A two-row table used for the whole-table update/delete witnesses. -/
def tTwo : Table :=
  { pk := "id", cols := ["id", "age"], notNull := [],
    rows := [[("id", .intV 1)], [("id", .intV 2)]], nextId := 3 }

/-- A table with a NOT NULL column, used to force a constraint violation. -/
def tNN : Table :=
  { pk := "id", cols := ["id", "name"], notNull := ["name"],
    rows := [[("id", .intV 1), ("name", .strV "a")]], nextId := 2 }

/-- `tTwo` after setting `age` to 2 on every row. -/
def tTwoUpd : Table :=
  { pk := "id", cols := ["id", "age"], notNull := [],
    rows := [[("id", .intV 1), ("age", .intV 2)], [("id", .intV 2), ("age", .intV 2)]],
    nextId := 3 }

/-- A connection string of a dialect other than sqlite whose database name
merely mentions `sqlite`. -/
def csMysql : String := "mysql+mysqlconnector://u:p@h:3307/sqlite_metrics"


/-! ## Helper lemmas -/

/-- Filtering an association list by a predicate on keys does not change the
lookup of a key the predicate accepts. -/
theorem lookup_filter_key (p : String → Bool) (c : String) (hc : p c = true) :
    ∀ d : Row, (d.filter (fun kv => p kv.1)).lookup c = d.lookup c := by
  intro d
  induction d with
  | nil => rfl
  | cons kv tl ih =>
    obtain ⟨k, w⟩ := kv
    cases hkc : c == k
    · cases hk : p k
      · simp [List.filter_cons, hk, List.lookup, hkc, ih]
      · simp [List.filter_cons, hk, List.lookup, hkc, ih]
    · have hck : c = k := eq_of_beq hkc
      have hk : p k = true := hck ▸ hc
      simp [List.filter_cons, hk, List.lookup, hkc]

theorem lookupV_cons_self (k : String) (v : Value) (r : Row) :
    lookupV ((k, v) :: r) k = v := by
  simp [lookupV, List.lookup]

theorem lookupV_cons_ne (k c : String) (v : Value) (r : Row) (h : c ≠ k) :
    lookupV ((k, v) :: r) c = lookupV r c := by
  have hck : (c == k) = false := beq_eq_false_iff_ne.mpr h
  simp [lookupV, List.lookup, hck]

/-- The empty conjunction (empty filter set) holds of every row. -/
theorem condsHold_nil (r : Row) : condsHold [] r = true := rfl

/-- If no row matches the filter, the select scan is empty. -/
theorem selectRows_eq_nil (t : Table) (conds : Row)
    (h : ∀ r ∈ t.rows, condsHold conds r = false) :
    selectRows t conds = [] := by
  unfold selectRows
  rw [List.filter_eq_nil_iff]
  intro r hr
  simp [h r hr]

/-- With `fetch_one`, a filter matching no row makes `aselect` return the
no-row signal (shared between the single- and multi-column claims). -/
theorem aselect_one_no_match (t : Table) (c : String) (filters : Row)
    (hc : t.cols.contains c = true)
    (hf : filters.all (fun kv => t.cols.contains kv.1) = true)
    (hnm : ∀ r ∈ t.rows, condsHold filters r = false) :
    Pymlops.aselect t c true filters = .ok (.one none) := by
  have hb : buildConds t filters = .ok filters := by
    unfold buildConds
    rw [if_pos hf]
  unfold Pymlops.aselect
  rw [hb]
  simp only [hc, if_pos, selectRows_eq_nil t filters hnm, List.map_nil]

/-! ## C5 — inserts are permissive against superset dictionaries -/

/-- C5: `insert_row(t, d)` silently drops every key of `d` outside the
reflected schema: the prepared values mention only schema columns, agree with
`d` on every schema column, and inserting `d` is the same call as inserting
the filtered mapping — extra keys never cause an error. -/
theorem insert_superset_keys_dropped (t : Table) (d : Row) :
    (∀ kv ∈ Pymlops.prepare_insertion t d, t.cols.contains kv.1 = true)
    ∧ (∀ c : String, t.cols.contains c = true →
        (Pymlops.prepare_insertion t d).lookup c = d.lookup c)
    ∧ Pymlops.insert_row t d = Pymlops.insert_row t (Pymlops.prepare_insertion t d) := by
  refine ⟨?_, ?_, ?_⟩
  · intro kv hkv
    have h2 : kv ∈ d ∧ kv.1 ∈ t.cols := by
      simpa [Pymlops.prepare_insertion] using hkv
    simpa using h2.2
  · intro c hc
    exact lookup_filter_key (fun k => t.cols.contains k) c hc d
  · unfold Pymlops.insert_row
    have hidem : Pymlops.prepare_insertion t (Pymlops.prepare_insertion t d)
        = Pymlops.prepare_insertion t d := by
      unfold Pymlops.prepare_insertion
      rw [List.filter_filter]
      simp
    rw [hidem]

/-- Witness for C5 at the scenario table and a superset mapping. -/
theorem insert_superset_keys_dropped_witness :
    (Pymlops.prepare_insertion tUsers dIns).lookup "name" = dIns.lookup "name"
    ∧ Pymlops.insert_row tUsers dIns
      = Pymlops.insert_row tUsers (Pymlops.prepare_insertion tUsers dIns) :=
  ⟨(insert_superset_keys_dropped tUsers dIns).2.1 "name" (by decide),
   (insert_superset_keys_dropped tUsers dIns).2.2⟩

/-! ## C2 — empty filters act as an always-true predicate -/

/-- C2: with no filter keyword arguments, `update_row(t, data)` (non-atomic
default) updates every row of `t` and raises nothing, and `removen(t)`
deletes every row of `t`; the empty filter set is an always-true predicate,
not an error. -/
theorem empty_filters_hit_every_row (t t' : Table) (data : Row)
    (h : executeUpdate t data [] = .ok t') :
    (Pymlops.update_row t data false []).state.rows = t.rows.map (applyData data)
    ∧ (Pymlops.update_row t data false []).raised = none
    ∧ Pymlops.removen t [] = .ok { t with rows := [] } := by
  have hb : buildConds t [] = .ok [] := rfl
  have hrows : t'.rows = t.rows.map (applyData data) := by
    unfold executeUpdate at h
    split at h
    · dsimp only at h
      split at h
      · cases h
        simp [condsHold_nil]
      · exact absurd h (by simp)
    · exact absurd h (by simp)
  refine ⟨?_, ?_, ?_⟩
  · simp only [Pymlops.update_row, hb, h]
    exact hrows
  · simp only [Pymlops.update_row, hb, h]
  · simp [Pymlops.removen, hb, condsHold_nil]

/-- Witness for C2: a concrete two-row table is fully updated and fully
deleted under empty filters. -/
theorem empty_filters_hit_every_row_witness :
    (Pymlops.update_row tTwo [("age", Value.intV 2)] false []).state.rows
      = tTwo.rows.map (applyData [("age", Value.intV 2)])
    ∧ (Pymlops.update_row tTwo [("age", Value.intV 2)] false []).raised = none
    ∧ Pymlops.removen tTwo [] = .ok { tTwo with rows := [] } :=
  empty_filters_hit_every_row tTwo tTwoUpd [("age", Value.intV 2)] (by rfl)

/-! ## C6 — `aselect` with `fetch_one` on no match returns the no-row signal -/

/-- C6: selecting a single column with `fetch_one=True` under filters that
match zero rows returns the defined no-row signal (`None`), not a crash. -/
theorem fetch_one_no_match_is_none (t : Table) (c : String) (filters : Row)
    (hc : t.cols.contains c = true)
    (hf : filters.all (fun kv => t.cols.contains kv.1) = true)
    (hnm : ∀ r ∈ t.rows, condsHold filters r = false) :
    Pymlops.aselect t c true filters = .ok (.one none) :=
  aselect_one_no_match t c filters hc hf hnm

/-- Witness for C6 at a concrete table and a filter matching no row. -/
theorem fetch_one_no_match_is_none_witness :
    Pymlops.aselect tTwo "age" true [("id", Value.intV 99)] = .ok (.one none) :=
  fetch_one_no_match_is_none tTwo "age" [("id", Value.intV 99)]
    (by decide) (by decide) (by decide)

/-! ## C10 — `aselectn` with `fetch_one` on no match raises instead -/

/-- C10: in the same zero-match situation, `aselectn` with `fetch_one=True`
applies `tuple()` to the `None` returned by `fetchone()` and raises
`TypeError`, unlike the single-column `aselect` which returns `None`. -/
theorem aselectn_no_match_raises (t : Table) (c : String) (filters : Row)
    (hc : t.cols.contains c = true)
    (hf : filters.all (fun kv => t.cols.contains kv.1) = true)
    (hnm : ∀ r ∈ t.rows, condsHold filters r = false) :
    Pymlops.aselectn t [c] true filters = .error .typeError
    ∧ Pymlops.aselect t c true filters = .ok (.one none) := by
  have hb : buildConds t filters = .ok filters := by
    unfold buildConds
    rw [if_pos hf]
  constructor
  · unfold Pymlops.aselectn
    rw [hb]
    simp only [List.all_cons, List.all_nil, hc, Bool.and_true, if_pos,
      selectRows_eq_nil t filters hnm, List.map_nil]
  · exact aselect_one_no_match t c filters hc hf hnm

/-- Witness for C10: the two calls diverge at a concrete zero-match input. -/
theorem aselectn_no_match_raises_witness :
    Pymlops.aselectn tTwo ["age"] true [("id", Value.intV 99)] = .error .typeError
    ∧ Pymlops.aselect tTwo "age" true [("id", Value.intV 99)] = .ok (.one none) :=
  aselectn_no_match_raises tTwo "age" [("id", Value.intV 99)]
    (by decide) (by decide) (by decide)

/-! ## C1 — insert / select-by-generated-id round trip -/

/-- Success of the modelled INSERT determines the generated rowid, the
absence of a primary-key collision with the existing rows, and the resulting
state. -/
theorem insertExec_ok_elim (t t' : Table) (vals : Row) (rid : Int)
    (h : insertExec t vals = .ok (t', rid)) :
    genRowid t vals = some rid
    ∧ t.rows.all (fun r => !(lookupV r t.pk == .intV rid)) = true
    ∧ t' = { t with
        rows := t.rows ++ [(t.pk, .intV rid) :: vals.filter (fun kv => kv.1 != t.pk)],
        nextId := max t.nextId (rid + 1) } := by
  unfold insertExec at h
  rcases hg : genRowid t vals with _ | n
  · rw [hg] at h
    exact absurd h (by simp)
  · rw [hg] at h
    dsimp only at h
    by_cases hcond : (rowOk t.pk t.notNull
          ((t.pk, Value.intV n) :: vals.filter (fun kv => kv.1 != t.pk))
        && t.rows.all (fun r => !(lookupV r t.pk == Value.intV n))) = true
    · rw [if_pos hcond] at h
      have h2 : ({ t with
            rows := t.rows ++ [(t.pk, Value.intV n) :: vals.filter (fun kv => kv.1 != t.pk)],
            nextId := max t.nextId (n + 1) } : Table) = t' ∧ n = rid := by
        simpa using h
      obtain ⟨h3, h4⟩ := h2
      subst h4
      subst h3
      rw [Bool.and_eq_true] at hcond
      exact ⟨rfl, hcond.2, rfl⟩
    · rw [if_neg hcond] at h
      exact absurd h (by simp)

/-- C1: inserting a row-data mapping with a non-empty schema-filtered key set
and then selecting by the generated identifier returned by `insert_row`
yields exactly the inserted value for every column present in both the
mapping and the schema. -/
theorem insert_select_round_trip (t t' : Table) (d : Row) (rid : Int)
    (c : String) (v : Value)
    (hpk : t.cols.contains t.pk = true)
    (hne : Pymlops.prepare_insertion t d ≠ [])
    (hins : Pymlops.insert_row t d = .ok (t', rid))
    (hcd : d.lookup c = some v)
    (hcs : t.cols.contains c = true) :
    Pymlops.aselect t' c true [(t.pk, .intV rid)] = .ok (.one (some [v])) := by
  unfold Pymlops.insert_row at hins
  obtain ⟨hg, hNoColl, ht'⟩ :=
    insertExec_ok_elim t t' (Pymlops.prepare_insertion t d) rid hins
  subst ht'
  have hlookupd : (Pymlops.prepare_insertion t d).lookup c = some v := by
    unfold Pymlops.prepare_insertion
    rw [lookup_filter_key (fun k => t.cols.contains k) c hcs d]
    exact hcd
  have hlook : lookupV ((t.pk, Value.intV rid) ::
      (Pymlops.prepare_insertion t d).filter (fun kv => kv.1 != t.pk)) c = v := by
    by_cases hceq : c = t.pk
    · subst hceq
      rw [lookupV_cons_self]
      unfold genRowid at hg
      rw [hlookupd] at hg
      cases v with
      | intV m =>
        have hm : m = rid := by simpa using hg
        rw [hm]
      | strV s => simp at hg
      | nullV => simp at hg
    · rw [lookupV_cons_ne _ _ _ _ hceq]
      unfold lookupV
      rw [lookup_filter_key (fun k => k != t.pk) c (by simpa using hceq) _, hlookupd]
      rfl
  have hold : t.rows.filter (condsHold [(t.pk, Value.intV rid)]) = [] := by
    rw [List.filter_eq_nil_iff]
    intro r hr
    have hr2 : ¬ lookupV r t.pk = Value.intV rid := by
      simpa using List.all_eq_true.mp hNoColl r hr
    simp [condsHold, condHolds, hr2]
  have hmatch : condsHold [(t.pk, Value.intV rid)] ((t.pk, Value.intV rid) ::
      (Pymlops.prepare_insertion t d).filter (fun kv => kv.1 != t.pk)) = true := by
    simp [condsHold, condHolds, lookupV_cons_self]
  have hb : buildConds { t with
      rows := t.rows ++ [(t.pk, Value.intV rid) ::
        (Pymlops.prepare_insertion t d).filter (fun kv => kv.1 != t.pk)],
      nextId := max t.nextId (rid + 1) }
      [(t.pk, Value.intV rid)] = .ok [(t.pk, Value.intV rid)] := by
    unfold buildConds
    rw [if_pos (by simpa using hpk)]
  have hc2 : c ∈ t.cols := by simpa using hcs
  unfold Pymlops.aselect
  rw [hb]
  simp [hc2, selectRows, List.filter_append, hold, List.filter_cons, hmatch, hlook]

/-- Witness for C1: the spec's scenario — inserting `{name: "a", age: 1}`
(plus a dropped extra key) into empty `users` generates id 1, and selecting
`name` by `id = 1` returns `("a",)`. -/
theorem insert_select_round_trip_witness :
    Pymlops.aselect tUsers1 "name" true [("id", Value.intV 1)]
      = .ok (.one (some [Value.strV "a"])) :=
  insert_select_round_trip tUsers tUsers1 dIns 1 "name" (Value.strV "a")
    (by decide) (by decide) (by rfl) (by rfl) (by decide)

/-! ## C4 — atomic rollback preserves state, non-atomic raises -/

/-- C4: when the underlying UPDATE execution raises (e.g. a constraint
violation), the atomic call leaves the table exactly as it was before the
call and raises nothing, while the same failure in non-atomic mode raises to
the caller; the db module's state is likewise unchanged. -/
theorem atomic_rollback_preserves_state (t : Table) (data filters : Row) (e : PyErr)
    (hb : filters.all (fun kv => t.cols.contains kv.1) = true)
    (hf : executeUpdate t data filters = .error e) :
    (Pymlops.update_row t data true filters).state = t
    ∧ (Pymlops.update_row t data true filters).raised = none
    ∧ (Pymlops.update_row t data false filters).raised = some e
    ∧ (Dbmod.update_row t data true filters).state = t := by
  have hbc : buildConds t filters = .ok filters := by
    unfold buildConds
    rw [if_pos hb]
  refine ⟨?_, ?_, ?_, ?_⟩ <;>
    simp [Pymlops.update_row, Dbmod.update_row, hbc, hf]

/-- Witness for C4: setting a NOT NULL column to NULL (a constraint
violation) in `tNN`. -/
theorem atomic_rollback_preserves_state_witness :
    (Pymlops.update_row tNN [("name", Value.nullV)] true []).state = tNN
    ∧ (Pymlops.update_row tNN [("name", Value.nullV)] true []).raised = none
    ∧ (Pymlops.update_row tNN [("name", Value.nullV)] false []).raised
      = some .integrityError
    ∧ (Dbmod.update_row tNN [("name", Value.nullV)] true []).state = tNN :=
  atomic_rollback_preserves_state tNN [("name", Value.nullV)] [] .integrityError
    (by rfl) (by rfl)

/-! ## C3 — error handling of atomic vs non-atomic update paths -/

/-- C3 at its failing input: in the pymlops module an atomic execution
failure is logged and not raised, and the non-atomic failure propagates — but
in the db module (`src/db/interface.py`, which `viz/learn.py` imports) the
except handler itself raises `NameError` (`sys` is never imported) and logs
nothing, contradicting the claim for that module. -/
theorem atomic_failure_handling_divergence :
    (Pymlops.update_row tTwo [("nope", Value.intV 0)] true []).raised = none
    ∧ (Pymlops.update_row tTwo [("nope", Value.intV 0)] true []).log
      = [.compileError]
    ∧ (Pymlops.update_row tTwo [("nope", Value.intV 0)] false []).raised
      = some .compileError
    ∧ (Dbmod.update_row tTwo [("nope", Value.intV 0)] true []).raised
      = some .nameError
    ∧ (Dbmod.update_row tTwo [("nope", Value.intV 0)] true []).log = [] :=
  ⟨rfl, rfl, rfl, rfl, rfl⟩

/-! ## C7 — raw query on a statement with no row set -/

/-- C7 at its failing input: the guard `if result and hasattr(result,
"fetchall")` is satisfied by every `CursorResult`, so for a DDL/DML statement
(no row set) `query` calls `fetchall()` and raises `ResourceClosedError`
instead of returning nothing; when the driver reports rows, the fetched rows
are returned. -/
theorem query_no_rowset_raises :
    Pymlops.query { returns_rows := false, rows := [] } = .error .resourceClosed
    ∧ hasattrFetchall { returns_rows := false, rows := [] } = true
    ∧ truthyResult { returns_rows := false, rows := [] } = true
    ∧ Pymlops.query { returns_rows := true, rows := [[Value.intV 1]] }
      = .ok (some [[Value.intV 1]]) :=
  ⟨rfl, rfl, rfl, rfl⟩

/-! ## C8 — sqlite tuning directives at construction -/

/-- A pattern that is a prefix of a list occurs in it as a substring. -/
theorem containsSub_of_isPrefixOf (pat l : List Char) (h : pat.isPrefixOf l = true) :
    containsSub pat l = true := by
  cases l with
  | nil =>
    cases pat with
    | nil => rfl
    | cons c cs => simp [List.isPrefixOf] at h
  | cons c rest => simp [containsSub, h]

/-- Counterexample to C8: `__init__` tests `'sqlite' in connection_string`,
so this mysql-dialect connection string also receives the full tuning
sequence — the PRAGMAs are not limited to the sqlite dialect. -/
theorem sqlite_tuning_counterexample :
    dialectOf csMysql ≠ "sqlite" ∧ Pymlops.initPragmas csMysql = pragmaSequence := by
  constructor
  · decide
  · rfl

/-- C8 as amended: the fixed four-directive sequence is applied exactly when
the connection string contains the substring `'sqlite'`; in particular every
sqlite-dialect target receives it once, a string not mentioning `sqlite`
receives nothing, and nothing else is ever issued. -/
theorem sqlite_tuning_amended (cs : String) :
    (dialectOf cs = "sqlite" → Pymlops.initPragmas cs = pragmaSequence)
    ∧ (containsSqlite cs = false → Pymlops.initPragmas cs = [])
    ∧ (Pymlops.initPragmas cs = pragmaSequence ∨ Pymlops.initPragmas cs = []) := by
  refine ⟨?_, ?_, ?_⟩
  · intro h
    have h2 : (dialectOf cs).toList = "sqlite".toList := congrArg String.toList h
    have hp1 : "sqlite".toList <+: cs.toList := by
      rw [← h2]
      exact (List.takeWhile_prefix _).trans (List.takeWhile_prefix _)
    have hpre : ("sqlite".toList).isPrefixOf cs.toList = true := by
      rw [List.isPrefixOf_iff_prefix]
      exact hp1
    have hcon : containsSqlite cs = true := containsSub_of_isPrefixOf _ _ hpre
    simp [Pymlops.initPragmas, hcon]
  · intro h
    simp [Pymlops.initPragmas, h]
  · unfold Pymlops.initPragmas
    cases h : containsSqlite cs <;> simp

/-- Witness for the amended C8 at a genuine sqlite connection string. -/
theorem sqlite_tuning_amended_witness :
    Pymlops.initPragmas "sqlite:///benchmarks.db" = pragmaSequence :=
  (sqlite_tuning_amended "sqlite:///benchmarks.db").1 (by decide)

/-! ## C9 — the two interface modules are not behaviorally equivalent -/

/-- Counterexample to C9: constructed on the same sqlite target, the pymlops
module issues the tuning PRAGMAs and the db module issues none, so their
store effects already differ at construction. -/
theorem interface_modules_not_equivalent :
    Pymlops.initPragmas "sqlite:///benchmarks.db"
      ≠ Dbmod.initPragmas "sqlite:///benchmarks.db" := by
  decide

/-- C9 as amended: the two modules agree on `query`, `prepare_insertion`,
`insert_row`, `aselect`, `aselectn`, `select_all` and `remove`; they differ
at construction (only pymlops applies the sqlite tuning PRAGMAs), in
`removen`'s return value (db returns the execution result, pymlops returns
nothing), and in `update_row`'s atomic failure path (pymlops logs and rolls
back, db raises `NameError` from the unimported `sys`). -/
theorem interface_modules_agree_on_core :
    Pymlops.query = Dbmod.query
    ∧ Pymlops.prepare_insertion = Dbmod.prepare_insertion
    ∧ Pymlops.insert_row = Dbmod.insert_row
    ∧ Pymlops.aselect = Dbmod.aselect
    ∧ Pymlops.aselectn = Dbmod.aselectn
    ∧ Pymlops.select_all = Dbmod.select_all
    ∧ Pymlops.remove = Dbmod.remove :=
  ⟨rfl, rfl, rfl, rfl, rfl, rfl, rfl⟩
